import Mathlib

/-!
Shallow embedding of the control-plane logic of the imx586 V4L2 sensor driver
(src/imx586.c).  Machine integers are modelled as `Nat` with explicit
`% 2^w` reductions exactly where the C code truncates or wraps; `do_div`
(64-bit dividend, 32-bit divisor) is modelled as `Nat` division with the
divisor reduced mod `2^32`.  Fallible paths (out-of-bounds table reads, NULL
mode pointers) are modelled with `Option`.
-/

/-- Two to the 64, the modulus of C `u64` arithmetic. -/
def U64 : Nat := 18446744073709551616

/-- Two to the 32, the modulus of C `u32` arithmetic. -/
def U32 : Nat := 4294967296

/-- Two to the 16, the modulus of C `u16` arithmetic. -/
def U16 : Nat := 65536

/-- C `u64` subtraction `a - b` with wrap-around modulo `2^64`. -/
def u64sub (a b : Nat) : Nat := (a % U64 + (U64 - b % U64)) % U64

/-- `IMX586_PIXEL_RATE` (src/imx586.c line 107). -/
def IMX586_PIXEL_RATE : Nat := 74250000

/-- `IMX586_HMAX_MAX` (line 58). -/
def IMX586_HMAX_MAX : Nat := 0xffff

/-- `IMX586_VMAX_MAX` (line 54). -/
def IMX586_VMAX_MAX : Nat := 0xfffff

/-- `IMX586_ANA_GAIN_HCG_LEVEL` (line 95). -/
def IMX586_ANA_GAIN_HCG_LEVEL : Nat := 51

/-- `IMX586_ANA_GAIN_HCG_THRESHOLD` (line 96): `HCG_LEVEL + 29 = 80`. -/
def IMX586_ANA_GAIN_HCG_THRESHOLD : Nat := IMX586_ANA_GAIN_HCG_LEVEL + 29

/-- `IMX586_ANA_GAIN_HCG_MIN` (line 97). -/
def IMX586_ANA_GAIN_HCG_MIN : Nat := 34

/-- `calculate_v4l2_cid_exposure` (lines 1065-1072).
`numerator = (vmax*(svr+1) - shr) * hmax + offset` in u64 arithmetic,
`do_div(numerator, hmax)` divides the u64 by the u32 truncation of `hmax`,
and `clamp_t(uint32_t, numerator, 0, 0xFFFFFFFF)` first casts the value to
`uint32_t` (a mod-`2^32` truncation), after which the bounds are identities. -/
def calculate_v4l2_cid_exposure (hmax vmax shr svr offset : Nat) : Nat :=
  let numerator := (u64sub (vmax * (svr + 1)) shr * hmax + offset) % U64
  let numerator := numerator / (hmax % U32)
  numerator % U32

/-- `calculate_min_max_v4l2_cid_exposure` (lines 1074-1080):
`max_shr = min((svr+1)*vmax - 4, 0xFFFF)`; the pair returned is
`(min_exposure, max_exposure) = (exposure at max_shr, exposure at min_shr)`. -/
def calculate_min_max_v4l2_cid_exposure (hmax vmax min_shr svr offset : Nat) : Nat × Nat :=
  let max_shr := min (u64sub ((svr + 1) * vmax) 4) 0xFFFF
  (calculate_v4l2_cid_exposure hmax vmax max_shr svr offset,
   calculate_v4l2_cid_exposure hmax vmax min_shr svr offset)

/-- `calculate_shr` (lines 1090-1100):
`temp = ((u64)exposure * hmax - offset); do_div(temp, hmax);
shr = (u32)(vmax*(svr+1) - temp)`. -/
def calculate_shr (exposure hmax vmax svr offset : Nat) : Nat :=
  let temp := u64sub (exposure * hmax) offset
  let temp := temp / (hmax % U32)
  u64sub (vmax * (svr + 1)) temp % U32

/-- The analogue-gain staging of `imx586_set_ctrl`, case
`V4L2_CID_ANALOGUE_GAIN` (lines 1149-1159): result is
`(register gain, useHGC)` where `useHGC = true` selects the
high-conversion-gain stage (`FDG_SEL0 = 0x01`). -/
def imx586_gain_select (hdr : Bool) (gain : Nat) : Nat × Bool :=
  if !hdr && gain ≥ IMX586_ANA_GAIN_HCG_THRESHOLD then
    let gain := gain - IMX586_ANA_GAIN_HCG_LEVEL
    let gain := if gain < IMX586_ANA_GAIN_HCG_MIN then IMX586_ANA_GAIN_HCG_MIN else gain
    (gain, true)
  else
    (gain, false)

/-- The color capability table `codes` (lines 726-737), in source order:
each bayer pattern contributes a quadruplet (no flip, h flip, v flip,
h and v flip).  Values are the `MEDIA_BUS_FMT_*` constants:
SRGGB16, SGRBG16, SGBRG16, SBGGR16, SRGGB12, SGRBG12, SGBRG12, SBGGR12. -/
def codes : List Nat := [0x3020, 0x301f, 0x301e, 0x301d, 0x3012, 0x3011, 0x3010, 0x3008]

/-- The mono capability table `mono_codes` (lines 740-745):
MEDIA_BUS_FMT_Y16_1X16, MEDIA_BUS_FMT_Y12_1X12. -/
def mono_codes : List Nat := [0x202e, 0x2013]

/-- The search loop of `imx586_get_format_code` (lines 995-997 / 1001-1003):
`for (i = 0; i < len; i++) if (tbl[i] == code) break;` — the first index at
which `code` occurs, or the table length when it does not occur. -/
def scan_idx : List Nat → Nat → Nat
  | [], _ => 0
  | c :: rest, code => if c = code then 0 else scan_idx rest code + 1

/-- `imx586_get_format_code` (lines 989-1008): looks `code` up in the
applicable capability table and returns the element at the loop's final
index.  The array access `tbl[i]` is modelled by `List.get?`, so the
out-of-bounds read `tbl[len]` that the C performs when the code is absent
becomes `none`.  The function reads no flip state. -/
def imx586_get_format_code (mono : Bool) (code : Nat) : Option Nat :=
  let tbl := if mono then mono_codes else codes
  tbl.get? (scan_idx tbl code)
def mode_common_regs : List (Nat × Nat) := [
  (0x3002, 0x01), (0x301A, 0x00), (0x301B, 0x00), (0x3024, 0x00), (0x3069, 0x00), (0x3074, 0x64),
  (0x30D5, 0x04), (0x3930, 0x0c), (0x3931, 0x01), (0x3A4C, 0x39), (0x3A4D, 0x01), (0x3A50, 0x48),
  (0x3A51, 0x01), (0x3E10, 0x10), (0x493C, 0x23), (0x4940, 0x41), (0x3014, 0x04), (0x3015, 0x02),
  (0x3030, 0x00), (0x3040, 0x03), (0x3023, 0x01), (0x30A6, 0x00), (0x3081, 0x00), (0x3460, 0x21),
  (0x3478, 0xA1), (0x347C, 0x01), (0x3480, 0x01), (0x3A4E, 0x14), (0x3A52, 0x14), (0x3A56, 0x00),
  (0x3A5A, 0x00), (0x3A5E, 0x00), (0x3A62, 0x00), (0x3A6A, 0x20), (0x3A6C, 0x42), (0x3A6E, 0xA0),
  (0x3B2C, 0x0C), (0x3B30, 0x1C), (0x3B34, 0x0C), (0x3B38, 0x1C), (0x3BA0, 0x0C), (0x3BA4, 0x1C),
  (0x3BA8, 0x0C), (0x3BAC, 0x1C), (0x3D3C, 0x11), (0x3D46, 0x0B), (0x3DE0, 0x3F), (0x3DE1, 0x08),
  (0x3E14, 0x87), (0x3E16, 0x91), (0x3E18, 0x91), (0x3E1A, 0x87), (0x3E1C, 0x78), (0x3E1E, 0x50),
  (0x3E20, 0x50), (0x3E22, 0x50), (0x3E24, 0x87), (0x3E26, 0x91), (0x3E28, 0x91), (0x3E2A, 0x87),
  (0x3E2C, 0x78), (0x3E2E, 0x50), (0x3E30, 0x50), (0x3E32, 0x50), (0x3E34, 0x87), (0x3E36, 0x91),
  (0x3E38, 0x91), (0x3E3A, 0x87), (0x3E3C, 0x78), (0x3E3E, 0x50), (0x3E40, 0x50), (0x3E42, 0x50),
  (0x4054, 0x64), (0x4148, 0xFE), (0x4149, 0x05), (0x414A, 0xFF), (0x414B, 0x05), (0x420A, 0x03),
  (0x4231, 0x08), (0x423D, 0x9C), (0x4242, 0xB4), (0x4246, 0xB4), (0x424E, 0xB4), (0x425C, 0xB4),
  (0x425E, 0xB6), (0x426C, 0xB4), (0x426E, 0xB6), (0x428C, 0xB4), (0x428E, 0xB6), (0x4708, 0x00),
  (0x4709, 0x00), (0x470A, 0xFF), (0x470B, 0x03), (0x470C, 0x00), (0x470D, 0x00), (0x470E, 0xFF),
  (0x470F, 0x03), (0x47EB, 0x1C), (0x47F0, 0xA6), (0x47F2, 0xA6), (0x47F4, 0xA0), (0x47F6, 0x96),
  (0x4808, 0xA6), (0x480A, 0xA6), (0x480C, 0xA0), (0x480E, 0x96), (0x492C, 0xB2), (0x4930, 0x03),
  (0x4932, 0x03), (0x4936, 0x5B), (0x4938, 0x82), (0x493E, 0x23), (0x4BA8, 0x1C), (0x4BA9, 0x03),
  (0x4BAC, 0x1C), (0x4BAD, 0x1C), (0x4BAE, 0x1C), (0x4BAF, 0x1C), (0x4BB0, 0x1C), (0x4BB1, 0x1C),
  (0x4BB2, 0x1C), (0x4BB3, 0x1C), (0x4BB4, 0x1C), (0x4BB8, 0x03), (0x4BB9, 0x03), (0x4BBA, 0x03),
  (0x4BBB, 0x03), (0x4BBC, 0x03), (0x4BBD, 0x03), (0x4BBE, 0x03), (0x4BBF, 0x03), (0x4BC0, 0x03),
  (0x4C14, 0x87), (0x4C16, 0x91), (0x4C18, 0x91), (0x4C1A, 0x87), (0x4C1C, 0x78), (0x4C1E, 0x50),
  (0x4C20, 0x50), (0x4C22, 0x50), (0x4C24, 0x87), (0x4C26, 0x91), (0x4C28, 0x91), (0x4C2A, 0x87),
  (0x4C2C, 0x78), (0x4C2E, 0x50), (0x4C30, 0x50), (0x4C32, 0x50), (0x4C34, 0x87), (0x4C36, 0x91),
  (0x4C38, 0x91), (0x4C3A, 0x87), (0x4C3C, 0x78), (0x4C3E, 0x50), (0x4C40, 0x50), (0x4C42, 0x50),
  (0x4D12, 0x1F), (0x4D13, 0x1E), (0x4D26, 0x33), (0x4E0E, 0x59), (0x4E14, 0x55), (0x4E16, 0x59),
  (0x4E1E, 0x3B), (0x4E20, 0x47), (0x4E22, 0x54), (0x4E26, 0x81), (0x4E2C, 0x7D), (0x4E2E, 0x81),
  (0x4E36, 0x63), (0x4E38, 0x6F), (0x4E3A, 0x7C), (0x4F3A, 0x3C), (0x4F3C, 0x46), (0x4F3E, 0x59),
  (0x4F42, 0x64), (0x4F44, 0x6E), (0x4F46, 0x81), (0x4F4A, 0x82), (0x4F5A, 0x81), (0x4F62, 0xAA),
  (0x4F72, 0xA9), (0x4F78, 0x36), (0x4F7A, 0x41), (0x4F7C, 0x61), (0x4F7D, 0x01), (0x4F7E, 0x7C),
  (0x4F7F, 0x01), (0x4F80, 0x77), (0x4F82, 0x7B), (0x4F88, 0x37), (0x4F8A, 0x40), (0x4F8C, 0x62),
  (0x4F8D, 0x01), (0x4F8E, 0x76), (0x4F8F, 0x01), (0x4F90, 0x5E), (0x4F91, 0x02), (0x4F92, 0x69),
  (0x4F93, 0x02), (0x4F94, 0x89), (0x4F95, 0x02), (0x4F96, 0xA4), (0x4F97, 0x02), (0x4F98, 0x9F),
  (0x4F99, 0x02), (0x4F9A, 0xA3), (0x4F9B, 0x02), (0x4FA0, 0x5F), (0x4FA1, 0x02), (0x4FA2, 0x68),
  (0x4FA3, 0x02), (0x4FA4, 0x8A), (0x4FA5, 0x02), (0x4FA6, 0x9E), (0x4FA7, 0x02), (0x519E, 0x79),
  (0x51A6, 0xA1), (0x51F0, 0xAC), (0x51F2, 0xAA), (0x51F4, 0xA5), (0x51F6, 0xA0), (0x5200, 0x9B),
  (0x5202, 0x91), (0x5204, 0x87), (0x5206, 0x82), (0x5208, 0xAC), (0x520A, 0xAA), (0x520C, 0xA5),
  (0x520E, 0xA0), (0x5210, 0x9B), (0x5212, 0x91), (0x5214, 0x87), (0x5216, 0x82), (0x5218, 0xAC),
  (0x521A, 0xAA), (0x521C, 0xA5), (0x521E, 0xA0), (0x5220, 0x9B), (0x5222, 0x91), (0x5224, 0x87),
  (0x5226, 0x82), (0x3002, 0x00)]

def mode_4k_regs : List (Nat × Nat) := [
  (0x301A, 0x00), (0x301B, 0x00), (0x3022, 0x02), (0x3023, 0x01), (0x3024, 0x00), (0x36EF, 0x00),
  (0x3069, 0x00), (0x3074, 0x64), (0x30D5, 0x04), (0x3930, 0x0c), (0x3931, 0x01), (0x3A4C, 0x39),
  (0x3A4D, 0x01), (0x3A50, 0x48), (0x3A51, 0x01), (0x3E10, 0x10), (0x493C, 0x23), (0x4940, 0x41)]

def mode_1080_regs : List (Nat × Nat) := [
  (0x301A, 0x00), (0x301B, 0x01), (0x3022, 0x00), (0x3023, 0x01), (0x3024, 0x00), (0x36EF, 0x00),
  (0x3069, 0x00), (0x3074, 0x64), (0x30D5, 0x02), (0x3930, 0x0c), (0x3931, 0x01), (0x3A4C, 0x39),
  (0x3A4D, 0x01), (0x3A50, 0x48), (0x3A51, 0x01), (0x3E10, 0x10), (0x493C, 0x23), (0x4940, 0x41)]

def mode_4k_nonlinear_regs : List (Nat × Nat) := [
  (0x301A, 0x10), (0x301B, 0x00), (0x3022, 0x02), (0x3023, 0x01), (0x3024, 0x02), (0x36EF, 0x01),
  (0x3030, 0x00), (0x3069, 0x02), (0x3074, 0x63), (0x3081, 0x02), (0x30D5, 0x02), (0x3930, 0xE6),
  (0x3931, 0x00), (0x3A4C, 0x61), (0x3A4D, 0x02), (0x3A50, 0x70), (0x3A51, 0x02), (0x3E10, 0x17),
  (0x493C, 0x41), (0x4940, 0x41)]

def mode_4k_16bit_regs : List (Nat × Nat) := [
  (0x301A, 0x10), (0x301B, 0x00), (0x3022, 0x02), (0x3023, 0x03), (0x3024, 0x02), (0x36EF, 0x00),
  (0x3030, 0x00), (0x3069, 0x02), (0x3074, 0x63), (0x3081, 0x02), (0x30D5, 0x02), (0x3930, 0xE6),
  (0x3931, 0x00), (0x3A4C, 0x61), (0x3A4D, 0x02), (0x3A50, 0x70), (0x3A51, 0x02), (0x3E10, 0x17),
  (0x493C, 0x41), (0x4940, 0x41)]

def mode_1080_16bit_regs : List (Nat × Nat) := [
  (0x301A, 0x10), (0x301B, 0x01), (0x3022, 0x02), (0x3023, 0x03), (0x3024, 0x02), (0x36EF, 0x00),
  (0x3030, 0x00), (0x3069, 0x02), (0x3074, 0x63), (0x3081, 0x02), (0x30D5, 0x02), (0x3930, 0xE6),
  (0x3931, 0x00), (0x3A4C, 0x61), (0x3A4D, 0x02), (0x3A50, 0x70), (0x3A51, 0x02), (0x3E10, 0x17),
  (0x493C, 0x41), (0x4940, 0x41)]

/-- `struct imx586_mode` (lines 140-173): resolution, HDR/linear flags,
timing bounds and the mode's register list.  The crop rectangle (identical
for every catalog entry and not used by any modelled operation) is omitted. -/
structure imx586_mode where
  width : Nat
  height : Nat
  hdr : Bool
  linear : Bool
  min_HMAX : Nat
  min_VMAX : Nat
  default_HMAX : Nat
  default_VMAX : Nat
  min_SHR : Nat
  reg_list : List (Nat × Nat)
deriving DecidableEq

/-- First entry of `supported_modes_12bit` (lines 587-608): 4K60 all pixel. -/
def mode_4k_linear : imx586_mode :=
  { width := 3856, height := 2180, hdr := false, linear := true,
    min_HMAX := 550, min_VMAX := 2250, default_HMAX := 550, default_VMAX := 2250,
    min_SHR := 20, reg_list := mode_4k_regs }

/-- Second entry of `supported_modes_12bit` (lines 609-630): 1080p90 2x2 binning. -/
def mode_1080_linear : imx586_mode :=
  { width := 1928, height := 1090, hdr := false, linear := true,
    min_HMAX := 366, min_VMAX := 2250, default_HMAX := 366, default_VMAX := 2250,
    min_SHR := 20, reg_list := mode_1080_regs }

/-- Sole entry of `supported_modes_nonlinear_12bit` (lines 634-659): 4K30,
gradation compression. -/
def mode_4k_nonlinear : imx586_mode :=
  { width := 3856, height := 2180, hdr := true, linear := false,
    min_HMAX := 550, min_VMAX := 4500, default_HMAX := 550, default_VMAX := 4500,
    min_SHR := 20, reg_list := mode_4k_nonlinear_regs }

/-- First entry of `supported_modes_16bit` (lines 663-688): 1080p30 2x2
binning, Clear HDR. -/
def mode_1080_16bit : imx586_mode :=
  { width := 1928, height := 1090, hdr := true, linear := true,
    min_HMAX := 550, min_VMAX := 4500, default_HMAX := 550, default_VMAX := 4500,
    min_SHR := 20, reg_list := mode_1080_16bit_regs }

/-- Second entry of `supported_modes_16bit` (lines 689-714): 4K30 all pixel,
Clear HDR. -/
def mode_4k_16bit : imx586_mode :=
  { width := 3856, height := 2180, hdr := true, linear := true,
    min_HMAX := 550, min_VMAX := 4500, default_HMAX := 550, default_VMAX := 4500,
    min_SHR := 20, reg_list := mode_4k_16bit_regs }

/-- `supported_modes_12bit` (lines 586-631). -/
def supported_modes_12bit : List imx586_mode := [mode_4k_linear, mode_1080_linear]

/-- `supported_modes_nonlinear_12bit` (lines 633-660). -/
def supported_modes_nonlinear_12bit : List imx586_mode := [mode_4k_nonlinear]

/-- `supported_modes_16bit` (lines 662-715). -/
def supported_modes_16bit : List imx586_mode := [mode_1080_16bit, mode_4k_16bit]

/-- The whole mode catalog (all three partitions). -/
def mode_catalog : List imx586_mode :=
  supported_modes_12bit ++ supported_modes_nonlinear_12bit ++ supported_modes_16bit

/-- `V4L2_XFER_FUNC_GRADATION_COMPRESSION` (line 118). -/
def V4L2_XFER_FUNC_GRADATION_COMPRESSION : Nat := 10

/-- `get_mode_table` (lines 820-876): partition choice from the (already
canonicalised) code, the transfer-function hint and the mono capability.
Unknown codes yield `*mode_list = NULL, *num_modes = 0`, i.e. `[]`. -/
def get_mode_table (mono : Bool) (code : Nat) (transfer_function : Nat) : List imx586_mode :=
  if mono then
    if code = 0x202e then supported_modes_16bit
    else if code = 0x2013 then
      if transfer_function = V4L2_XFER_FUNC_GRADATION_COMPRESSION then
        supported_modes_nonlinear_12bit
      else supported_modes_12bit
    else []
  else
    if code = 0x3020 ∨ code = 0x301f ∨ code = 0x301e ∨ code = 0x301d then
      supported_modes_16bit
    else if code = 0x3012 ∨ code = 0x3011 ∨ code = 0x3010 ∨ code = 0x3008 then
      if transfer_function = V4L2_XFER_FUNC_GRADATION_COMPRESSION then
        supported_modes_nonlinear_12bit
      else supported_modes_12bit
    else []

/-- Absolute difference of two naturals (C `abs` on the int difference). -/
def nat_dist (a b : Nat) : Nat := (a - b) + (b - a)

/-- Modelled from the spec: `v4l2_find_nearest_size` — the windowing
framework's nearest-neighbor match over the mode list ("nearest-neighbor on
requested width/height, ties broken by catalog order — first match wins",
spec section 4.1).  An empty list yields `none` (the C helper returns NULL). -/
def v4l2_find_nearest_size (l : List imx586_mode) (w h : Nat) : Option imx586_mode :=
  l.foldl (fun best m =>
    match best with
    | none => some m
    | some b =>
        if nat_dist m.width w + nat_dist m.height h <
           nat_dist b.width w + nat_dist b.height h then some m else best) none

/-- The mutable driver state (`struct imx586`, lines 770-813) together with
the exposure/blanking control bookkeeping the v4l2 control framework keeps
on the driver's behalf. -/
structure DriverState where
  mono : Bool
  mode : imx586_mode
  fmt_code : Nat
  HMAX : Nat
  VMAX : Nat
  streaming : Bool
  common_regs_written : Bool
  vflip_grabbed : Bool
  hflip_grabbed : Bool
  exposure_min : Nat
  exposure_max : Nat
  exposure_val : Nat
  exposure_def : Nat
  hblank_val : Nat
  vblank_val : Nat
  pixel_rate_reported : Nat
deriving DecidableEq

/-- The control ids handled by `imx586_set_ctrl` (lines 1135-1200). -/
inductive CtrlId where
  | exposure
  | analogue_gain
  | vblank
  | hblank
  | hflip
  | vflip
deriving DecidableEq

/-- `clamp_t(uint32_t, x, lo, hi)`: every argument is cast to `uint32_t`
first, then `min`/`max` are applied (`lo`, `hi` are below `2^32` at every
use site, so only the cast of `x` can truncate). -/
def clamp_t_u32 (x lo hi : Nat) : Nat := min (max (x % U32) lo) hi

/-- `imx586_set_ctrl` (lines 1102-1212) as a state transition.
`powered` is the result of `pm_runtime_get_if_in_use` (line 1132): when
false, only the pre-power `V4L2_CID_VBLANK` section (lines 1114-1126) runs.
`junk` is the value of the uninitialized local `current_exposure` that
line 1121 clamps (the variable is declared at line 1116 and never assigned
before being read).  `__v4l2_ctrl_modify_range` (line 1125) is modelled per
the framework contract: it installs the new `[min, max]` and default, and
clamps the control's current value into the new range.
Register writes change no driver state and are not modelled here. -/
def imx586_set_ctrl (powered : Bool) (junk : Nat) (st : DriverState)
    (id : CtrlId) (val : Nat) : DriverState :=
  let st :=
    if id = CtrlId.vblank then
      let vmax := (st.mode.height + val) % U32
      let st := { st with VMAX := vmax }
      let mm := calculate_min_max_v4l2_cid_exposure st.HMAX vmax st.mode.min_SHR 0 209
      let current_exposure := clamp_t_u32 junk mm.1 mm.2
      { st with exposure_min := mm.1, exposure_max := mm.2,
                exposure_def := current_exposure,
                exposure_val := min (max st.exposure_val mm.1) mm.2 }
    else st
  if !powered then st
  else
    match id with
    | CtrlId.exposure => st
    | CtrlId.analogue_gain => st
    | CtrlId.vblank => { st with VMAX := (st.mode.height + val) % U32 }
    | CtrlId.hblank =>
        let pixel_rate := st.mode.width * IMX586_PIXEL_RATE / (st.mode.min_HMAX % U32)
        let hmax := (st.mode.width + val) * IMX586_PIXEL_RATE / (pixel_rate % U32)
        { st with HMAX := hmax % U16 }
    | CtrlId.hflip => st
    | CtrlId.vflip => st

/-- Whether the framework has a control grabbed (`__v4l2_ctrl_grab`); only
the flip controls are ever grabbed by this driver (line 1585). -/
def ctrl_grabbed (st : DriverState) : CtrlId → Bool
  | CtrlId.vflip => st.vflip_grabbed
  | CtrlId.hflip => st.hflip_grabbed
  | _ => false

/-- Modelled from the spec: the control framework's set-control entry point
(`__v4l2_ctrl_s_ctrl` and the user-space path): a grabbed control is
rejected (`false`, the framework's -EBUSY) without invoking the driver;
otherwise the value is stored and `imx586_set_ctrl` runs.  Per-control
range bookkeeping other than the exposure control's is elided (the modelled
call sites pass in-range values). -/
def v4l2_s_ctrl (powered : Bool) (junk : Nat) (st : DriverState)
    (id : CtrlId) (val : Nat) : DriverState × Bool :=
  if ctrl_grabbed st id then (st, false)
  else
    let st :=
      match id with
      | CtrlId.exposure => { st with exposure_val := min (max val st.exposure_min) st.exposure_max }
      | CtrlId.hblank => { st with hblank_val := val }
      | CtrlId.vblank => { st with vblank_val := val }
      | _ => st
    (imx586_set_ctrl powered junk st id val, true)

/-- `imx586_set_framing_limits` (lines 1358-1397): installs the mode's
default timing, republishes the pixel rate, and pushes the default
horizontal and vertical blanking through `__v4l2_ctrl_s_ctrl` (which
re-enters `imx586_set_ctrl`). -/
def imx586_set_framing_limits (powered : Bool) (junk : Nat) (st : DriverState) : DriverState :=
  let mode := st.mode
  let st := { st with VMAX := mode.default_VMAX % U32, HMAX := mode.default_HMAX % U16 }
  let pixel_rate := mode.width * IMX586_PIXEL_RATE / (mode.min_HMAX % U32)
  let def_hblank := u64sub (mode.default_HMAX * pixel_rate / IMX586_PIXEL_RATE) mode.width
  let st := (v4l2_s_ctrl powered junk st CtrlId.hblank def_hblank).1
  let st := (v4l2_s_ctrl powered junk st CtrlId.vblank (u64sub mode.default_VMAX mode.height)).1
  { st with pixel_rate_reported := pixel_rate }

/-- `imx586_set_pad_format` (lines 1400-1455), image pad, ACTIVE case.
The result is `none` when the C executes undefined behaviour: an
out-of-bounds `codes[]` read inside `imx586_get_format_code`, or the NULL
mode dereference in `imx586_update_image_pad_format` after
`v4l2_find_nearest_size` gets an empty list.  A defined run returns the new
state and the function's return value (the source returns 0 on every
defined image-pad path; the mode commit at lines 1436-1439 happens only
when the resolved mode differs from the current one). -/
def imx586_set_pad_format (powered : Bool) (junk : Nat) (st : DriverState)
    (code w h transfer_function : Nat) : Option (DriverState × Nat) :=
  match imx586_get_format_code st.mono code with
  | none => none
  | some code2 =>
    let mode_list := get_mode_table st.mono code2 transfer_function
    match v4l2_find_nearest_size mode_list w h with
    | none => none
    | some mode =>
      if st.mode ≠ mode then
        let st := { st with mode := mode, fmt_code := code2 }
        some (imx586_set_framing_limits powered junk st, 0)
      else
        some (st, 0)

/-- A register-transport behaviour: which write addresses succeed.
`wr a = true` means a write to address `a` succeeds. -/
def WriteOracle : Type := Nat → Bool

/-- `imx586_write_regs` (lines 961-980): writes the list in order and
returns an error at the first failing write; `true` means every write
succeeded. -/
def imx586_write_regs (wr : WriteOracle) (regs : List (Nat × Nat)) : Bool :=
  regs.all (fun r => wr r.1)

/-- Steps 2-7 of `imx586_start_streaming` (lines 1493-1534), after the
common-register step.  `cw` is the (possibly just updated)
`common_regs_written` flag, `ctrlOk` the result of
`__v4l2_ctrl_handler_setup` (line 1525, the framework re-applying every
control through the driver's write paths).  The compression-curve writes
(lines 1502-1512), HDR-threshold writes (lines 1515-1519) and the digital
clamp write (line 1522) have their return values discarded by the source,
hence the unused `let` bindings; the mode-list write, the control
re-application and the mode-select write (0x3000) are checked.
Returns (success, common_regs_written). -/
def imx586_start_streaming_rest (wr : WriteOracle) (cw : Bool) (mode : imx586_mode)
    (ctrlOk : Bool) : Bool × Bool :=
  if !imx586_write_regs wr mode.reg_list then (false, cw)
  else
    let _ := if !mode.linear then [wr 0x36E8, wr 0x36EE, wr 0x36E4, wr 0x36EC]
             else [wr 0x36E8, wr 0x36EE, wr 0x36E4, wr 0x36EC]
    let _ := if mode.hdr then [wr 0x36D0, wr 0x36D4, wr 0x36E2] else []
    let _ := wr 0x3458
    if !ctrlOk then (false, cw)
    else (wr 0x3000, cw)

/-- `imx586_start_streaming` (lines 1474-1535).  When the common registers
have not been written since power-up, the full common list is written
(checked, lines 1483-1487), then the black-level register 0x30DC is written
with its return value discarded (line 1488) and the flag is set.
Returns (success, common_regs_written). -/
def imx586_start_streaming (wr : WriteOracle) (common_regs_written : Bool)
    (mode : imx586_mode) (ctrlOk : Bool) : Bool × Bool :=
  if common_regs_written then imx586_start_streaming_rest wr true mode ctrlOk
  else if imx586_write_regs wr mode_common_regs then
    let _ := wr 0x30DC
    imx586_start_streaming_rest wr true mode ctrlOk
  else (false, common_regs_written)

/-- `imx586_set_stream` (lines 1551-1597).  A call with the current state is
a no-op (lines 1558-1561).  On enable, a start failure leaves the streaming
flag unchanged (goto err_rpm_put skips line 1582); on success the flag is
set and `__v4l2_ctrl_grab(imx586->vflip, enable)` (line 1585) grabs ONLY the
vflip control.  On disable the stop is best-effort, the flag is cleared and
vflip is ungrabbed.  Returns (new state, success). -/
def imx586_set_stream (wr : WriteOracle) (ctrlOk : Bool) (st : DriverState)
    (enable : Bool) : DriverState × Bool :=
  if st.streaming = enable then (st, true)
  else if enable then
    let r := imx586_start_streaming wr st.common_regs_written st.mode ctrlOk
    let st := { st with common_regs_written := r.2 }
    if r.1 then ({ st with streaming := true, vflip_grabbed := true }, true)
    else (st, false)
  else
    ({ st with streaming := false, vflip_grabbed := false }, true)

/-- Modelled from the spec: the Format Resolver's canonical-code rule for
color devices ("each bayer pattern has exactly 4 phase-variants; the
resolver always returns the variant matching current (h-flip, v-flip)",
spec sections 3 and 4.1; the `codes` table comment, lines 717-725, fixes
the in-quadruplet order no flip, h flip, v flip, h and v flip). -/
def spec_resolve_color_code (hflip vflip : Bool) (code : Nat) : Option Nat :=
  let i := scan_idx codes code
  codes.get? (i / 4 * 4 + (if hflip then 1 else 0) + (if vflip then 2 else 0))

/-- Round-to-nearest division (halves round up): the "exact rounding, not
truncation" that spec section 4.2 prescribes for the horizontal-blanking to
line-length conversion. -/
def spec_round_div (n d : Nat) : Nat := (2 * n + d) / (2 * d)

/-- Modelled from the spec: the section 4.2 horizontal-blanking conversion
`line_length = round((width + hblank) * fixed_pixel_rate /
pixel_rate_at_min_line_length)` with `pixel_rate_at_min_line_length =
width * fixed_pixel_rate / min_line_length`. -/
def spec_line_length (mode : imx586_mode) (hblank : Nat) : Nat :=
  spec_round_div ((mode.width + hblank) * IMX586_PIXEL_RATE)
    (mode.width * IMX586_PIXEL_RATE / mode.min_HMAX)

/-- The truncating conversion the source actually performs (lines
1181-1194): floor division at both steps. -/
def floor_line_length (mode : imx586_mode) (hblank : Nat) : Nat :=
  (mode.width + hblank) * IMX586_PIXEL_RATE /
    (mode.width * IMX586_PIXEL_RATE / (mode.min_HMAX % U32) % U32)

/-- A concrete color-device state: 4K linear mode with its default timing
(HMAX 550, VMAX 2250), the exposure range derived from them
([4, 2230]), the default exposure control value 1000, and streaming off. -/
def st0 : DriverState :=
  { mono := false, mode := mode_4k_linear, fmt_code := 0x3012,
    HMAX := 550, VMAX := 2250,
    streaming := false, common_regs_written := false,
    vflip_grabbed := false, hflip_grabbed := false,
    exposure_min := 4, exposure_max := 2230,
    exposure_val := 1000, exposure_def := 1000,
    hblank_val := 0, vblank_val := 70,
    pixel_rate_reported := 520560000 }

/-- A mono-device state in the default mono format. -/
def st0_mono : DriverState := { st0 with mono := true, fmt_code := 0x2013 }

/-- u64 subtraction coincides with truncated subtraction when it cannot wrap. -/
theorem u64sub_of_le (a b : Nat) (hb : b ≤ a) (ha : a < U64) : u64sub a b = a - b := by
  unfold u64sub U64 at *
  omega

/-- Under the register-range bounds (`hmax ≤ 0xffff`, `vmax ≤ 0xfffff`,
`shr ≤ vmax`) none of the u64/u32 reductions in
`calculate_v4l2_cid_exposure` truncate, and the computed exposure is
`(vmax - shr) + 209 / hmax`. -/
theorem calculate_exposure_eq (hmax vmax shr : Nat) (h1 : 0 < hmax)
    (h2 : hmax ≤ IMX586_HMAX_MAX) (h3 : shr ≤ vmax) (h4 : vmax ≤ IMX586_VMAX_MAX) :
    calculate_v4l2_cid_exposure hmax vmax shr 0 209 = (vmax - shr) + 209 / hmax := by
  unfold IMX586_HMAX_MAX at h2
  unfold IMX586_VMAX_MAX at h4
  simp only [calculate_v4l2_cid_exposure]
  have hsub : u64sub (vmax * (0 + 1)) shr = vmax - shr := by
    rw [Nat.zero_add, Nat.mul_one]
    apply u64sub_of_le _ _ h3
    unfold U64; omega
  rw [hsub]
  have hm32 : hmax % U32 = hmax := by unfold U32; omega
  rw [hm32]
  have hmul : (vmax - shr) * hmax ≤ 0xfffff * 0xffff := Nat.mul_le_mul (by omega) h2
  have hnum : ((vmax - shr) * hmax + 209) % U64 = (vmax - shr) * hmax + 209 := by
    unfold U64; omega
  rw [hnum]
  have hq : ((vmax - shr) * hmax + 209) / hmax = (vmax - shr) + 209 / hmax := by
    rw [Nat.add_comm, Nat.add_mul_div_right 209 (vmax - shr) h1, Nat.add_comm]
  rw [hq]
  apply Nat.mod_eq_of_lt
  have h209 : 209 / hmax ≤ 209 := Nat.div_le_self _ _
  unfold U32
  omega

/-- Round-to-nearest lies between floor and floor + 1. -/
theorem round_div_bounds (n d : Nat) (hd : 0 < d) :
    n / d ≤ spec_round_div n d ∧ spec_round_div n d ≤ n / d + 1 := by
  unfold spec_round_div
  constructor
  · have h1 : n / d = 2 * n / (2 * d) := by
      rw [Nat.mul_div_mul_left n d (by omega)]
    rw [h1]
    exact Nat.div_le_div_right (by omega)
  · have h2 : (2 * n + d) ≤ 2 * (n + d) := by omega
    calc (2 * n + d) / (2 * d) ≤ 2 * (n + d) / (2 * d) := Nat.div_le_div_right h2
      _ = (n + d) / d := Nat.mul_div_mul_left _ _ (by omega)
      _ = n / d + 1 := Nat.add_div_right n hd

/-- The search loop stops at an index holding the code when the code is in
the table. -/
theorem scan_idx_of_mem (l : List Nat) (c : Nat) (h : c ∈ l) :
    l.get? (scan_idx l c) = some c := by
  induction l with
  | nil => cases h
  | cons a t ih =>
    by_cases hac : a = c
    · simp [scan_idx, hac]
    · have hct : c ∈ t := by
        rcases List.mem_cons.mp h with h1 | h1
        · exact absurd h1.symm hac
        · exact h1
      have hstep : scan_idx (a :: t) c = scan_idx t c + 1 := by simp [scan_idx, hac]
      rw [hstep, List.get?_cons_succ]
      exact ih hct

/-- The search loop runs off the end when the code is not in the table. -/
theorem scan_idx_of_not_mem (l : List Nat) (c : Nat) (h : c ∉ l) :
    scan_idx l c = l.length := by
  induction l with
  | nil => rfl
  | cons a t ih =>
    have hac : ¬a = c := fun hh => h (hh ▸ List.mem_cons_self a t)
    have hct : c ∉ t := fun hh => h (List.mem_cons_of_mem a hh)
    simp [scan_idx, hac, ih hct]

/-- C7: for every requested gain in the control range [0, 240], HDR modes
always use the LCG stage with the gain unmodified; otherwise a gain at or
above the HCG threshold (80) selects the HCG stage with register gain
`max(gain - 51, 34)`, and a gain below it selects LCG unmodified. -/
theorem C7_gain_select (hdr : Bool) (gain : Nat) (h : gain ≤ 240) :
    imx586_gain_select hdr gain =
      if hdr then (gain, false)
      else if 80 ≤ gain then (max (gain - 51) 34, true)
      else (gain, false) := by
  cases hdr with
  | true =>
    simp [imx586_gain_select, IMX586_ANA_GAIN_HCG_THRESHOLD, IMX586_ANA_GAIN_HCG_LEVEL]
  | false =>
    by_cases h80 : 80 ≤ gain <;> by_cases h85 : gain - 51 < 34 <;>
      simp [imx586_gain_select, IMX586_ANA_GAIN_HCG_THRESHOLD, IMX586_ANA_GAIN_HCG_LEVEL,
        IMX586_ANA_GAIN_HCG_MIN, h80, h85] <;>
      omega

/-- C7 witness: at hdr = false, gain = 100 the theorem yields the HCG stage
with register gain 49. -/
theorem C7_gain_select_witness : imx586_gain_select false 100 = (49, true) := by
  have h := C7_gain_select false 100 (by decide)
  simpa using h

/-- C10: the format-code lookup is total exactly on the applicable
capability table: a code present in the table is returned unchanged (an
element of the table), while for any absent code the search loop ends with
index = table length and the array access one past the end, modelled as
`none`. -/
theorem C10_lookup_totality (mono : Bool) (code : Nat) :
    (code ∈ (if mono then mono_codes else codes) →
       imx586_get_format_code mono code = some code) ∧
    (code ∉ (if mono then mono_codes else codes) →
       scan_idx (if mono then mono_codes else codes) code
           = (if mono then mono_codes else codes).length ∧
       imx586_get_format_code mono code = none) := by
  constructor
  · intro h
    simp only [imx586_get_format_code]
    exact scan_idx_of_mem _ _ h
  · intro h
    have h1 := scan_idx_of_not_mem _ _ h
    refine ⟨h1, ?_⟩
    simp only [imx586_get_format_code, h1]
    exact List.get?_eq_none.mpr (le_refl _)

/-- C10 witness: SRGGB12 (0x3012) is in the color table and is returned
unchanged; Y12 (0x2013) is absent from the color table, the loop index
reaches 8 = length, and the access is out of bounds. -/
theorem C10_lookup_totality_witness :
    imx586_get_format_code false 0x3012 = some 0x3012 ∧
    (scan_idx codes 0x2013 = codes.length ∧ imx586_get_format_code false 0x2013 = none) := by
  refine ⟨(C10_lookup_totality false 0x3012).1 (by decide), ?_⟩
  have h := (C10_lookup_totality false 0x2013).2 (by decide)
  simpa using h

/-- C3 (code bug evaluation): the source's `imx586_get_format_code` reads no
flip state at all and returns every in-table code unchanged, whereas the
spec's resolver maps a requested SRGGB12 under h-flip to the quadruplet's
h-flip variant SGRBG12; the two differ at that input. -/
theorem C3_flip_resolution_eval :
    imx586_get_format_code false 0x3012 = some 0x3012 ∧
    imx586_get_format_code false 0x3011 = some 0x3011 ∧
    imx586_get_format_code false 0x301d = some 0x301d ∧
    spec_resolve_color_code true false 0x3012 = some 0x3011 ∧
    (0x3012 : Nat) ≠ 0x3011 := by decide

/-- C1 (code bug evaluation): committing a vertical-blanking change clamps
the uninitialized local `current_exposure` (modelled by `junk`) and installs
the result as the exposure control's new default — two different junk values
give two different outcomes, and neither equals the configured exposure
1000 — while committing a horizontal-blanking change recomputes HMAX but
leaves the exposure control's range untouched. -/
theorem C1_blanking_recompute_eval :
    (imx586_set_ctrl true 0 st0 CtrlId.vblank 70).exposure_def = 4 ∧
    (imx586_set_ctrl true 4000000000 st0 CtrlId.vblank 70).exposure_def = 2230 ∧
    st0.exposure_val = 1000 ∧
    (imx586_set_ctrl true 0 st0 CtrlId.hblank 100).exposure_min = st0.exposure_min ∧
    (imx586_set_ctrl true 0 st0 CtrlId.hblank 100).exposure_max = st0.exposure_max ∧
    (imx586_set_ctrl true 0 st0 CtrlId.hblank 100).HMAX = 564 := by decide

set_option maxRecDepth 8000 in
/-- C2 (code bug evaluation): after a successful stream start only the
vflip control is grabbed; while streaming, a vflip set is rejected but an
hflip set is accepted and runs the driver's flip path. -/
theorem C2_hflip_not_frozen_eval :
    (imx586_set_stream (fun _ => true) true st0 true).1.streaming = true ∧
    (imx586_set_stream (fun _ => true) true st0 true).1.vflip_grabbed = true ∧
    (imx586_set_stream (fun _ => true) true st0 true).1.hflip_grabbed = false ∧
    (v4l2_s_ctrl true 0 (imx586_set_stream (fun _ => true) true st0 true).1
        CtrlId.hflip 1).2 = true ∧
    (v4l2_s_ctrl true 0 (imx586_set_stream (fun _ => true) true st0 true).1
        CtrlId.vflip 1).2 = false := by decide

/-- C4 (code bug evaluation): requesting a code outside the device's
capability set never produces an UnsupportedFormat error.  A mono code on a
color device (Y12), a bayer code on a mono device (SRGGB12) and a code in
neither table all drive the format-set path into undefined behaviour — the
out-of-bounds capability-table read, then a NULL mode dereference — modelled
as `none`; and on every defined path the operation returns 0 (success). -/
theorem C4_no_unsupported_format_error :
    imx586_set_pad_format true 0 st0 0x2013 3840 2160 0 = none ∧
    imx586_set_pad_format true 0 st0_mono 0x3012 3840 2160 0 = none ∧
    imx586_set_pad_format true 0 st0 0x9999 3840 2160 0 = none ∧
    (∀ (powered : Bool) (junk : Nat) (st : DriverState) (code w h tf : Nat),
       match imx586_set_pad_format powered junk st code w h tf with
       | none => True
       | some p => p.2 = 0) := by
  refine ⟨by decide, by decide, by decide, ?_⟩
  intro powered junk st code w h tf
  unfold imx586_set_pad_format
  cases imx586_get_format_code st.mono code with
  | none => trivial
  | some code2 =>
    dsimp only
    cases v4l2_find_nearest_size (get_mode_table st.mono code2 tf) w h with
    | none => trivial
    | some mode =>
      dsimp only
      split
      · trivial
      · rename_i p heq
        split at heq <;> (cases heq; rfl)

set_option maxRecDepth 8000 in
/-- C6 counterexample: with a transport that fails exactly on the
black-level register 0x30DC (which occurs in neither the common list nor
the 4K mode list), a cold start sequence reports success and marks the
common registers written, although the black-level write of step 1 failed. -/
theorem C6_counterexample :
    imx586_start_streaming (fun a => !(a == 0x30DC)) false mode_4k_linear true = (true, true) ∧
    (fun a : Nat => !(a == 0x30DC)) 0x30DC = false := by
  exact ⟨by decide, rfl⟩

/-- C6 amended: the start sequence aborts with a surfaced failure exactly
when one of its four checked steps fails — the common-register list (only
written when not yet written since power-up), the mode register list, the
control re-application, and the mode-select write (0x3000); failures of the
black-level, compression-curve, HDR-threshold and digital-clamp writes do
not affect the result.  A failed start leaves the streaming flag of
`set_stream` unchanged (false). -/
theorem C6_checked_steps :
    (∀ (wr : WriteOracle) (cw : Bool) (mode : imx586_mode) (ctrlOk : Bool),
       (imx586_start_streaming wr cw mode ctrlOk).1 =
         ((cw || imx586_write_regs wr mode_common_regs) &&
          (imx586_write_regs wr mode.reg_list && (ctrlOk && wr 0x3000)))) ∧
    (∀ (wr : WriteOracle) (ctrlOk : Bool) (st : DriverState),
       (imx586_set_stream wr ctrlOk st true).1.streaming =
         (st.streaming || (imx586_set_stream wr ctrlOk st true).2)) := by
  constructor
  · intro wr cw mode ctrlOk
    unfold imx586_start_streaming imx586_start_streaming_rest
    cases cw <;> cases ctrlOk <;>
      cases h1 : imx586_write_regs wr mode_common_regs <;>
      cases h2 : imx586_write_regs wr mode.reg_list <;>
      simp [h1, h2]
  · intro wr ctrlOk st
    unfold imx586_set_stream
    cases hst : st.streaming with
    | true => simp [hst]
    | false =>
      simp only [hst, Bool.false_eq_true, if_false, if_true, Bool.false_or]
      cases hr : (imx586_start_streaming wr st.common_regs_written st.mode ctrlOk).1 <;>
        simp [hr]

/-- C9 counterexample: on the 4K mode with hblank = 4, the committed HMAX
is 550 (truncating division) while the spec's exact-rounding formula gives
551. -/
theorem C9_counterexample :
    (imx586_set_ctrl true 0 st0 CtrlId.hblank 4).HMAX = 550 ∧
    spec_line_length mode_4k_linear 4 = 551 ∧ (550 : Nat) ≠ 551 := by decide

/-- C9 amended: a horizontal-blanking value committed while powered sets
HMAX by the floor (truncating) version of the spec's conversion at both
division steps, the floor result is within one of the spec's
exactly-rounded value, and the externally reported pixel rate is unchanged
by the hblank path. -/
theorem C9_hblank_conversion (st : DriverState) (junk val : Nat)
    (h1 : 0 < st.mode.min_HMAX) (h2 : st.mode.min_HMAX < U32)
    (h3 : 0 < st.mode.width * IMX586_PIXEL_RATE / st.mode.min_HMAX)
    (h4 : st.mode.width * IMX586_PIXEL_RATE / st.mode.min_HMAX < U32) :
    (imx586_set_ctrl true junk st CtrlId.hblank val).HMAX
        = floor_line_length st.mode val % U16 ∧
    floor_line_length st.mode val ≤ spec_line_length st.mode val ∧
    spec_line_length st.mode val ≤ floor_line_length st.mode val + 1 ∧
    (imx586_set_ctrl true junk st CtrlId.hblank val).pixel_rate_reported
        = st.pixel_rate_reported := by
  have hmod1 : st.mode.min_HMAX % U32 = st.mode.min_HMAX := Nat.mod_eq_of_lt h2
  have hmod2 : st.mode.width * IMX586_PIXEL_RATE / st.mode.min_HMAX % U32
      = st.mode.width * IMX586_PIXEL_RATE / st.mode.min_HMAX := Nat.mod_eq_of_lt h4
  refine ⟨?_, ?_, ?_, ?_⟩
  · simp [imx586_set_ctrl, floor_line_length]
  · unfold floor_line_length spec_line_length
    rw [hmod1, hmod2]
    exact (round_div_bounds _ _ h3).1
  · unfold floor_line_length spec_line_length
    rw [hmod1, hmod2]
    exact (round_div_bounds _ _ h3).2
  · simp [imx586_set_ctrl]

/-- C9 witness: the amended theorem applied at the 4K state with
hblank = 4. -/
theorem C9_hblank_conversion_witness :
    (imx586_set_ctrl true 0 st0 CtrlId.hblank 4).HMAX
        = floor_line_length st0.mode 4 % U16 ∧
    floor_line_length st0.mode 4 ≤ spec_line_length st0.mode 4 ∧
    spec_line_length st0.mode 4 ≤ floor_line_length st0.mode 4 + 1 ∧
    (imx586_set_ctrl true 0 st0 CtrlId.hblank 4).pixel_rate_reported
        = st0.pixel_rate_reported :=
  C9_hblank_conversion st0 0 4 (by decide) (by decide) (by decide) (by decide)

/-- C5 counterexample: at line length 550, frame length 2250 and
integration hold 20 (a valid triple: 20 = min_SHR ≤ min(0xFFFF, 2250-4)),
the round trip returns 21, not the original 20. -/
theorem C5_counterexample :
    calculate_shr (calculate_v4l2_cid_exposure 550 2250 20 0 209) 550 2250 0 209 = 21 ∧
    (21 : Nat) ≠ 20 := by decide

/-- C5 amended: for all valid triples (with svr = 0, offset = 209), the
round trip through the two directions returns exactly
`integration_hold + 1` when the line length does not divide 209 — which is
every admissible line length, since all catalog modes have
min_HMAX ≥ 366 — and `integration_hold` itself only when it does. -/
theorem C5_round_trip (hmax vmax shr : Nat) (h1 : 0 < hmax) (h2 : hmax ≤ IMX586_HMAX_MAX)
    (h3 : shr + 4 ≤ vmax) (h4 : vmax ≤ IMX586_VMAX_MAX) :
    calculate_shr (calculate_v4l2_cid_exposure hmax vmax shr 0 209) hmax vmax 0 209
      = shr + (if 209 % hmax = 0 then 0 else 1) := by
  rw [calculate_exposure_eq hmax vmax shr h1 h2 (by omega) h4]
  unfold IMX586_HMAX_MAX at h2
  unfold IMX586_VMAX_MAX at h4
  simp only [calculate_shr]
  have hm32 : hmax % U32 = hmax := by unfold U32; omega
  rw [hm32, show vmax * (0 + 1) = vmax from by ring]
  set q := 209 / hmax with hq
  set r := 209 % hmax with hr
  set E := vmax - shr with hE
  have h209 : hmax * q + r = 209 := by rw [hq, hr]; exact Nat.div_add_mod 209 hmax
  have hrlt : r < hmax := by rw [hr]; exact Nat.mod_lt _ h1
  have hE4 : 4 ≤ E := by omega
  have hqle : q ≤ 209 := by rw [hq]; exact Nat.div_le_self _ _
  have hexp1 : (E + q) * hmax = E * hmax + hmax * q := by ring
  have hEh : hmax ≤ E * hmax := by
    have h5 : 1 * hmax ≤ E * hmax := Nat.mul_le_mul_right hmax (by omega)
    omega
  have hge : 209 ≤ (E + q) * hmax := by omega
  have hlt64 : (E + q) * hmax < U64 := by
    have hla : (E + q) * hmax ≤ (0xfffff + 209) * 0xffff := Nat.mul_le_mul (by omega) h2
    unfold U64
    omega
  rw [u64sub_of_le _ _ hge hlt64]
  have htemp : ((E + q) * hmax - 209) / hmax = E - (if r = 0 then 0 else 1) := by
    by_cases hr0 : r = 0
    · have heq : (E + q) * hmax - 209 = E * hmax := by omega
      rw [heq]
      simp [hr0, Nat.mul_div_cancel _ h1]
    · have hsplit : E * hmax = (E - 1) * hmax + hmax := by
        have h6 : E - 1 + 1 = E := by omega
        calc E * hmax = (E - 1 + 1) * hmax := by rw [h6]
          _ = (E - 1) * hmax + hmax := by ring
      have heq : (E + q) * hmax - 209 = (hmax - r) + (E - 1) * hmax := by omega
      rw [heq, Nat.add_mul_div_right _ _ h1, Nat.div_eq_of_lt (by omega)]
      simp [hr0]
  rw [htemp]
  have hfin : u64sub vmax (E - (if r = 0 then 0 else 1))
      = vmax - (E - (if r = 0 then 0 else 1)) := by
    apply u64sub_of_le
    · split <;> omega
    · unfold U64; omega
  rw [hfin]
  have hval : vmax - (E - (if r = 0 then 0 else 1)) = shr + (if r = 0 then 0 else 1) := by
    split <;> omega
  rw [hval]
  apply Nat.mod_eq_of_lt
  unfold U32
  split <;> omega

/-- C5 witness: the amended round trip applied at (550, 2250, 20); since
550 does not divide 209, the result is 20 + 1. -/
theorem C5_round_trip_witness :
    calculate_shr (calculate_v4l2_cid_exposure 550 2250 20 0 209) 550 2250 0 209
      = 20 + (if 209 % 550 = 0 then 0 else 1) :=
  C5_round_trip 550 2250 20 (by decide) (by decide) (by decide) (by decide)

/-- For a minimum hold within the derived bound, the derived exposure
range is ordered: the exposure at `max_shr = min(vmax - 4, 0xFFFF)` is at
most the exposure at `min_shr`, because the computed exposure is antitone
in the hold. -/
theorem exposure_bounds_ordered (hmax vmax min_shr : Nat) (h1 : 0 < hmax)
    (h2 : hmax ≤ IMX586_HMAX_MAX) (h4 : vmax ≤ IMX586_VMAX_MAX) (h5 : 4 ≤ vmax)
    (h6 : min_shr ≤ vmax - 4) (h7 : min_shr ≤ 0xFFFF) :
    (calculate_min_max_v4l2_cid_exposure hmax vmax min_shr 0 209).1 ≤
      (calculate_min_max_v4l2_cid_exposure hmax vmax min_shr 0 209).2 := by
  simp only [calculate_min_max_v4l2_cid_exposure]
  have hms : u64sub ((0 + 1) * vmax) 4 = vmax - 4 := by
    rw [show (0 + 1) * vmax = vmax from by ring]
    apply u64sub_of_le _ _ (by omega)
    have h4' : vmax ≤ 0xfffff := h4
    unfold U64
    unfold IMX586_VMAX_MAX at h4'
    omega
  rw [hms]
  have hmsle : min (vmax - 4) 0xFFFF ≤ vmax := by omega
  rw [calculate_exposure_eq hmax vmax (min (vmax - 4) 0xFFFF) h1 h2 hmsle h4,
      calculate_exposure_eq hmax vmax min_shr h1 h2 (by omega) h4]
  omega

/-- C8: for every mode in the catalog and every admissible blanking
setting (VMAX and HMAX at least the mode minima and within register
range), the derived exposure bounds satisfy min_exposure ≤ max_exposure. -/
theorem C8_exposure_bounds :
    ∀ mode ∈ mode_catalog, ∀ vmax hmax : Nat,
      mode.min_VMAX ≤ vmax → vmax ≤ IMX586_VMAX_MAX →
      mode.min_HMAX ≤ hmax → hmax ≤ IMX586_HMAX_MAX →
      (calculate_min_max_v4l2_cid_exposure hmax vmax mode.min_SHR 0 209).1 ≤
        (calculate_min_max_v4l2_cid_exposure hmax vmax mode.min_SHR 0 209).2 := by
  intro mode hm vmax hmax hv1 hv2 hh1 hh2
  have hcases : mode = mode_4k_linear ∨ mode = mode_1080_linear ∨ mode = mode_4k_nonlinear ∨
      mode = mode_1080_16bit ∨ mode = mode_4k_16bit := by
    simpa [mode_catalog, supported_modes_12bit, supported_modes_nonlinear_12bit,
      supported_modes_16bit] using hm
  have hfields : mode.min_SHR = 20 ∧ 2250 ≤ mode.min_VMAX ∧ 366 ≤ mode.min_HMAX := by
    rcases hcases with h | h | h | h | h <;> subst h <;> exact ⟨rfl, by decide, by decide⟩
  obtain ⟨hshr, hvm, hhm⟩ := hfields
  rw [hshr]
  exact exposure_bounds_ordered hmax vmax 20 (by omega) hh2 hv2 (by omega) (by omega) (by omega)

/-- C8 witness: the 4K linear mode at its default timing. -/
theorem C8_exposure_bounds_witness :
    (calculate_min_max_v4l2_cid_exposure 550 2250 mode_4k_linear.min_SHR 0 209).1 ≤
      (calculate_min_max_v4l2_cid_exposure 550 2250 mode_4k_linear.min_SHR 0 209).2 :=
  C8_exposure_bounds mode_4k_linear (by decide) 2250 550 (by decide) (by decide)
    (by decide) (by decide)
